import Mathlib

/-!
Verification of the IoT temperature processing pipeline
(`airflow/dags/iot_temperature_processing.py`).

The four stage functions `load_and_filter_data`, `clean_temperature`,
`calculate_extreme_days` and `generate_report` are embedded as pure Lean
functions over explicit row lists; the Airflow XCom registry of stage 4 is
an explicit record of optional values.  Temperatures are modelled as
rationals, pandas `quantile` by its documented linear-interpolation rule,
and errors (`AirflowException`, `TypeError`, `ZeroDivisionError`) by
`Except` values.
-/

namespace IotPipeline

/-- A calendar date, as produced by `pd.to_datetime(...).dt.date`. -/
structure Date where
  year : Nat
  month : Nat
  day : Nat
deriving DecidableEq

/-- One row of the raw CSV (`room_id`, `noted_date`, `temp`, `out/in`). -/
structure RawRow where
  room_id : String
  noted_date : String
  temp : ℚ
  out_in : String
deriving DecidableEq

/-- One row after stage 1: the raw columns plus the parsed `date` column. -/
structure FilteredRow where
  room_id : String
  noted_date : String
  temp : ℚ
  out_in : String
  date : Date
deriving DecidableEq

/-- The abstract error kinds raised by the stage tasks
(`AirflowException` in the source, distinguished by message). -/
inductive PipelineError where
  | NoMatchingRecords (observed : List String)
  | EmptyInput
deriving DecidableEq

/-! ### Date parsing (source lines 36 to 41) -/

/-- Split a character list at every occurrence of a separator character. -/
def splitOnChar (sep : Char) : List Char → List (List Char)
  | [] => [[]]
  | c :: rest =>
    let r := splitOnChar sep rest
    if c = sep then [] :: r
    else
      match r with
      | [] => [[c]]
      | g :: gs => (c :: g) :: gs

/-- Read a non-empty all-digit character list as a number. -/
def digitsToNat (cs : List Char) : Option Nat :=
  if cs ≠ [] ∧ cs.all (·.isDigit) then
    some (cs.foldl (fun a c => a * 10 + (c.toNat - 48)) 0)
  else none

/-- Gregorian leap-year test. -/
def isLeapYear (y : Nat) : Bool :=
  (y % 4 == 0 && y % 100 != 0) || y % 400 == 0

/-- Number of days in a month, as validated by the datetime library. -/
def daysInMonth (y m : Nat) : Nat :=
  if m = 2 then (if isLeapYear y then 29 else 28)
  else if m = 4 ∨ m = 6 ∨ m = 9 ∨ m = 11 then 30
  else 31

/-- Parse `noted_date` with the fixed format `%d-%m-%Y %H:%M` and keep the
date part, as `pd.to_datetime(..., format, errors coerce).dt.date` does;
`none` models `NaT`. -/
def parseNotedDate (s : String) : Option Date :=
  match splitOnChar ' ' s.data with
  | [datePart, timePart] =>
    match splitOnChar '-' datePart, splitOnChar ':' timePart with
    | [ds, ms, ys], [hs, mins] => do
      let d ← digitsToNat ds
      let mo ← digitsToNat ms
      let y ← digitsToNat ys
      let h ← digitsToNat hs
      let mi ← digitsToNat mins
      if ds.length ≤ 2 ∧ ms.length ≤ 2 ∧ ys.length = 4 ∧
          hs.length ≤ 2 ∧ mins.length ≤ 2 ∧
          1 ≤ mo ∧ mo ≤ 12 ∧ 1 ≤ d ∧ d ≤ daysInMonth y mo ∧
          h ≤ 23 ∧ mi ≤ 59 then
        some ⟨y, mo, d⟩
      else none
    | _, _ => none
  | _ => none

/-! ### Stage 1: `load_and_filter_data` -/

/-- Pandas series `unique`: the distinct values in order of first
appearance, as reported in the stage-1 error message and used as the
group keys of stage 3. -/
def uniqueFirst {α : Type} [DecidableEq α] (l : List α) : List α :=
  l.foldl (fun acc v => if v ∈ acc then acc else acc ++ [v]) []

/-- Python string lowering, as in the filter expression of line 28.
(Stated on the character list so that it evaluates by unfolding.) -/
def lowerStr (s : String) : String :=
  ⟨s.data.map Char.toLower⟩

/-- The stage-1 filter predicate `lower-cased out/in equals in` (line 28). -/
def keepRow (r : RawRow) : Bool :=
  lowerStr r.out_in == "in"

/-- Attach the parsed `date` column to a raw row;
`none` when the date fails to parse (the row is then dropped by `dropna`). -/
def addDate (r : RawRow) : Option FilteredRow :=
  (parseNotedDate r.noted_date).map
    (fun d => ⟨r.room_id, r.noted_date, r.temp, r.out_in, d⟩)

/-- What stage 1 persists and pushes:
the filtered rows, `total_rows` and `filtered_rows`. -/
structure StageOneResult where
  filtered : List FilteredRow
  total_rows : Nat
  filtered_rows : Nat
deriving DecidableEq

/-- Stage 1 (`load_and_filter_data`): filter on `out/in`, raise when the
filter leaves nothing, then parse `noted_date` and drop unparsable rows. -/
def load_and_filter_data (df : List RawRow) : Except PipelineError StageOneResult :=
  if (df.filter keepRow).length = 0 then
    .error (.NoMatchingRecords (uniqueFirst (df.map (·.out_in))))
  else
    .ok ⟨(df.filter keepRow).filterMap addDate, df.length,
      ((df.filter keepRow).filterMap addDate).length⟩

/-! ### Stage 2: `clean_temperature` -/

/-- Linear interpolation at a fractional position into a sorted sample:
`s[floor pos] + (pos - floor pos) * (s[ceil pos] - s[floor pos])`. -/
def interpAt (s : List ℚ) (pos : ℚ) : ℚ :=
  s.getD ⌊pos⌋.toNat 0 + (pos - ⌊pos⌋) * (s.getD ⌈pos⌉.toNat 0 - s.getD ⌊pos⌋.toNat 0)

/-- Pandas series `quantile(q)` with the default linear interpolation:
the value at virtual index `q * (n - 1)` of the sorted sample. -/
def quantile (xs : List ℚ) (q : ℚ) : ℚ :=
  interpAt (List.insertionSort (· ≤ ·) xs) (q * ((xs.length : ℚ) - 1))

/-- The stage-2 band test of source line 63, inclusive at both ends. -/
def inBand (p5 p95 : ℚ) (r : FilteredRow) : Bool :=
  decide (p5 ≤ r.temp) && decide (r.temp ≤ p95)

/-- What stage 2 persists and pushes. -/
structure StageTwoResult where
  cleaned : List FilteredRow
  outliers_removed : Nat
  p5 : ℚ
  p95 : ℚ
  cleaned_rows : Nat
deriving DecidableEq

/-- Stage 2 (`clean_temperature`): raise on an empty input, otherwise keep
the rows whose `temp` lies in the inclusive `[p5, p95]` band, where `p5` and
`p95` are the 5% and 95% quantiles of the whole filtered `temp` column. -/
def clean_temperature (df : List FilteredRow) : Except PipelineError StageTwoResult :=
  if df.length = 0 then .error .EmptyInput
  else
    let p5 := quantile (df.map (·.temp)) (5 / 100)
    let p95 := quantile (df.map (·.temp)) (95 / 100)
    let df_clean := df.filter (inBand p5 p95)
    .ok ⟨df_clean, df.length - df_clean.length, p5, p95, df_clean.length⟩

/-- Percentile as the specification words it: "the value at fractional rank
`p×(n−1)` in the sorted sample, interpolated between the two nearest order
statistics", the interpolation weight being the fractional part of the rank. -/
def specPercentile (xs : List ℚ) (p : ℚ) : ℚ :=
  (1 - (p * ((xs.length : ℚ) - 1) - ⌊p * ((xs.length : ℚ) - 1)⌋)) *
      (List.insertionSort (· ≤ ·) xs).getD ⌊p * ((xs.length : ℚ) - 1)⌋.toNat 0 +
    (p * ((xs.length : ℚ) - 1) - ⌊p * ((xs.length : ℚ) - 1)⌋) *
      (List.insertionSort (· ≤ ·) xs).getD ⌈p * ((xs.length : ℚ) - 1)⌉.toNat 0

/-! ### Stage 3: `calculate_extreme_days` -/

/-- Sort key embedding the calendar order on valid dates. -/
def Date.key (d : Date) : Nat :=
  (d.year * 100 + d.month) * 100 + d.day

/-- One row of the `daily_stats` frame: a date and its mean temperature. -/
structure DailyAvg where
  date : Date
  avg_temp : ℚ
deriving DecidableEq

/-- The distinct dates of a row list, pandas-unique order. -/
def distinctDates (df : List FilteredRow) : List Date :=
  uniqueFirst (df.map (·.date))

/-- Mean of `temp` over the rows carrying a given date. -/
def dateMean (df : List FilteredRow) (d : Date) : ℚ :=
  let ts := (df.filter (fun r => r.date = d)).map (·.temp)
  ts.sum / (ts.length : ℚ)

/-- Pandas groupby-mean of `temp` over the `date` column: one row per distinct date,
keys in ascending date order, value the arithmetic mean. -/
def groupbyDateMean (df : List FilteredRow) : List DailyAvg :=
  (List.insertionSort (fun a b => Date.key a ≤ Date.key b) (distinctDates df)).map
    (fun d => ⟨d, dateMean df d⟩)

/-- Pandas `nlargest` on the average-temperature column: stable descending sort, first `n`. -/
def nlargest (n : Nat) (l : List DailyAvg) : List DailyAvg :=
  (List.insertionSort (fun a b => b.avg_temp ≤ a.avg_temp) l).take n

/-- Pandas `nsmallest` on the average-temperature column: stable ascending sort, first `n`. -/
def nsmallest (n : Nat) (l : List DailyAvg) : List DailyAvg :=
  (List.insertionSort (fun a b => a.avg_temp ≤ b.avg_temp) l).take n

/-- What stage 3 persists and pushes. -/
structure StageThreeResult where
  hottest : List DailyAvg
  coldest : List DailyAvg
deriving DecidableEq

/-- Stage 3 (`calculate_extreme_days`): raise on an empty input, otherwise
group by date, average, and take the 5 largest and 5 smallest daily means. -/
def calculate_extreme_days (df : List FilteredRow) : Except PipelineError StageThreeResult :=
  if df.length = 0 then .error .EmptyInput
  else
    let daily_stats := groupbyDateMean df
    .ok ⟨nlargest 5 daily_stats, nsmallest 5 daily_stats⟩

/-! ### Stage 4: `generate_report` -/

/-- Two-decimal fixed-point rendering, the shape of the `:.2f` format. -/
def fmt2 (q : ℚ) : String :=
  let c := ⌊|q| * 100 + 1 / 2⌋.toNat
  let fp := c % 100
  (if q < 0 then "-" else "") ++ toString (c / 100) ++ "." ++
    (if fp < 10 then "0" ++ toString fp else toString fp)

/-- Zero-pad to two digits. -/
def pad2 (n : Nat) : String :=
  if n < 10 then "0" ++ toString n else toString n

/-- Zero-pad to four digits. -/
def pad4 (n : Nat) : String :=
  if n < 10 then "000" ++ toString n
  else if n < 100 then "00" ++ toString n
  else if n < 1000 then "0" ++ toString n
  else toString n

/-- Rendering of a Python date: ISO `YYYY-MM-DD`. -/
def Date.render (d : Date) : String :=
  pad4 d.year ++ "-" ++ pad2 d.month ++ "-" ++ pad2 d.day

/-- Rendering of a pulled XCom value that may be absent: Python renders the
`None` object as the literal text `None`. -/
def optNatStr : Option Nat → String
  | none => "None"
  | some n => toString n

/-- One line of an extreme-day block:
`    {i+1}. {date} — {avg_temp:.2f}°C`. -/
def dayLine (i : Nat) (d : DailyAvg) : String :=
  "    " ++ toString (i + 1) ++ ". " ++ Date.render d.date ++ " — " ++
    fmt2 d.avg_temp ++ "°C"

/-- The `chr(10).join(... enumerate(days) ...)` block of the report. -/
def enumLines (days : List DailyAvg) : String :=
  String.intercalate "\n" (days.enum.map (fun p => dayLine p.1 p.2))

/-- The rendered report text: the report f-string, literal text alternating
with the interpolated values in source order. -/
def renderReport (now sTotal sFiltered sPct sP5 sP95 sOutliers sCleaned
    sHot sCold : String) : String :=
  "\n==========================================\nОТЧЁТ ПО ОБРАБОТКЕ ДАННЫХ IOT-ТЕМПЕРАТУРЫ\n==========================================\nДата обработки: " ++
  now ++
  "\n\nИсходные данные:\n  - Всего записей: " ++ sTotal ++
  "\n  - Записей после фильтрации (out/in = \x27In\x27): " ++ sFiltered ++
  "\n  - Процент отфильтрованных: " ++ sPct ++
  "%\n\nОчистка температуры:\n  - 5-й перцентиль: " ++ sP5 ++
  "°C\n  - 95-й перцентиль: " ++ sP95 ++
  "°C\n  - Удалено выбросов: " ++ sOutliers ++
  "\n  - Осталось записей после очистки: " ++ sCleaned ++
  "\n\nЭкстремальные дни:\n  Самые жаркие:\n" ++ sHot ++
  "\n\n  Самые холодные:\n" ++ sCold ++
  "\n\nРезультаты сохранены в:\n  - /opt/airflow/processed/hottest_days.csv\n  - /opt/airflow/processed/coldest_days.csv\n==========================================\n"

/-- The XCom key→value registry as stage 4 sees it: `xcom_pull` yields
`None` (here `none`) for a key no upstream task pushed. -/
structure XComRegistry where
  total_rows : Option Nat
  filtered_rows : Option Nat
  outliers_removed : Option Nat
  p5 : Option ℚ
  p95 : Option ℚ
  cleaned_rows : Option Nat
  hottest_days : Option (List DailyAvg)
  coldest_days : Option (List DailyAvg)
deriving DecidableEq

/-- The Python exceptions the report f-string can raise while it is
evaluated: `TypeError` from using `None` in arithmetic, a `:.2f` format or
`enumerate`, and `ZeroDivisionError` from `filtered_rows/total_rows`. -/
inductive ReportError where
  | typeError
  | zeroDivision
deriving DecidableEq

/-- Stage 4 (`generate_report`): pull the eight facts and evaluate the
report f-string.  The interpolations are evaluated in source order; the
first failing one raises.  Plain `{...}` interpolations of a missing value
render the text `None` and do not fail. -/
def generate_report (now : String) (ti : XComRegistry) : Except ReportError String :=
  match ti.filtered_rows, ti.total_rows with
  | none, _ => .error .typeError
  | some _, none => .error .typeError
  | some fr, some tr =>
    if tr = 0 then .error .zeroDivision
    else
      match ti.p5 with
      | none => .error .typeError
      | some p5v =>
        match ti.p95 with
        | none => .error .typeError
        | some p95v =>
          match ti.hottest_days with
          | none => .error .typeError
          | some hot =>
            match ti.coldest_days with
            | none => .error .typeError
            | some cold =>
              .ok (renderReport now (optNatStr ti.total_rows)
                (optNatStr ti.filtered_rows)
                (fmt2 ((fr : ℚ) / (tr : ℚ) * 100))
                (fmt2 p5v) (fmt2 p95v)
                (optNatStr ti.outliers_removed)
                (optNatStr ti.cleaned_rows)
                (enumLines hot) (enumLines cold))

/-! ### Substring machinery (for claims about the report text) -/

/-- Is the first character list an initial segment of the second? -/
def prefChars : List Char → List Char → Bool
  | [], _ => true
  | _ :: _, [] => false
  | a :: as, b :: bs => a == b && prefChars as bs

/-- Does the first character list occur contiguously inside the second? -/
def infChars : List Char → List Char → Bool
  | n, [] => prefChars n []
  | n, b :: hs => prefChars n (b :: hs) || infChars n hs

/-- Substring test on strings. -/
def strContains (hay needle : String) : Bool :=
  infChars needle.data hay.data

/-! ### Helper lemmas: first-appearance deduplication -/

theorem mem_foldl_dedup {α : Type} [DecidableEq α] (l : List α) (acc : List α) (a : α) :
    a ∈ l.foldl (fun acc v => if v ∈ acc then acc else acc ++ [v]) acc ↔
      a ∈ acc ∨ a ∈ l := by
  induction l generalizing acc with
  | nil => simp
  | cons x xs ih =>
    simp only [List.foldl_cons]
    by_cases hx : x ∈ acc
    · rw [if_pos hx, ih]
      constructor
      · rintro (h | h)
        · exact Or.inl h
        · exact Or.inr (List.mem_cons_of_mem _ h)
      · rintro (h | h)
        · exact Or.inl h
        · rcases List.mem_cons.mp h with rfl | h
          · exact Or.inl hx
          · exact Or.inr h
    · rw [if_neg hx, ih]
      simp only [List.mem_append, List.mem_singleton, List.mem_cons]
      tauto

theorem nodup_foldl_dedup {α : Type} [DecidableEq α] (l : List α) (acc : List α)
    (hacc : acc.Nodup) :
    (l.foldl (fun acc v => if v ∈ acc then acc else acc ++ [v]) acc).Nodup := by
  induction l generalizing acc with
  | nil => simpa
  | cons x xs ih =>
    simp only [List.foldl_cons]
    by_cases hx : x ∈ acc
    · rw [if_pos hx]; exact ih _ hacc
    · rw [if_neg hx]
      refine ih _ ?_
      simpa [List.nodup_append, hacc] using hx

theorem mem_uniqueFirst {α : Type} [DecidableEq α] (l : List α) (a : α) :
    a ∈ uniqueFirst l ↔ a ∈ l := by
  unfold uniqueFirst
  rw [mem_foldl_dedup]
  simp

theorem nodup_uniqueFirst {α : Type} [DecidableEq α] (l : List α) :
    (uniqueFirst l).Nodup :=
  nodup_foldl_dedup l [] List.nodup_nil

/-! ### Helper lemmas: stage 1 -/

theorem length_filterMap_addDate (l : List RawRow) :
    (l.filterMap addDate).length =
      (l.filter (fun r => (parseNotedDate r.noted_date).isSome)).length := by
  induction l with
  | nil => rfl
  | cons a l ih =>
    simp only [List.filterMap_cons, List.filter_cons]
    cases h : parseNotedDate a.noted_date <;>
      simp [addDate, h, ih]

/-! ### Helper lemmas: quantile monotonicity -/

theorem getD_mono_of_sorted {s : List ℚ} (hs : s.Sorted (· ≤ ·)) {i j : Nat}
    (hij : i ≤ j) (hj : j < s.length) : s.getD i 0 ≤ s.getD j 0 := by
  have hi : i < s.length := lt_of_le_of_lt hij hj
  rw [List.getD_eq_getElem _ _ hi, List.getD_eq_getElem _ _ hj]
  exact hs.rel_get_of_le (a := ⟨i, hi⟩) (b := ⟨j, hj⟩) hij

theorem interpAt_ge_lo {s : List ℚ} (hs : s.Sorted (· ≤ ·)) {pos : ℚ}
    (h0 : 0 ≤ pos) (h1 : pos ≤ (s.length : ℚ) - 1) :
    s.getD ⌊pos⌋.toNat 0 ≤ interpAt s pos := by
  have hfc : ⌊pos⌋ ≤ ⌈pos⌉ := Int.floor_le_ceil pos
  have hc1 : ⌈pos⌉ ≤ (s.length : ℤ) - 1 := by
    rw [Int.ceil_le]; push_cast; linarith
  have h0f : (0 : ℤ) ≤ ⌊pos⌋ := by
    rw [Int.le_floor]; exact_mod_cast h0
  have hcn : ⌈pos⌉.toNat < s.length := by omega
  have hv : s.getD ⌊pos⌋.toNat 0 ≤ s.getD ⌈pos⌉.toNat 0 :=
    getD_mono_of_sorted hs (by omega) hcn
  have hfr : (0 : ℚ) ≤ pos - ⌊pos⌋ := by
    have := Int.floor_le pos; linarith
  unfold interpAt
  nlinarith [mul_nonneg hfr (sub_nonneg.mpr hv)]

theorem interpAt_le_hi {s : List ℚ} (hs : s.Sorted (· ≤ ·)) {pos : ℚ}
    (h0 : 0 ≤ pos) (h1 : pos ≤ (s.length : ℚ) - 1) :
    interpAt s pos ≤ s.getD ⌈pos⌉.toNat 0 := by
  have hfc : ⌊pos⌋ ≤ ⌈pos⌉ := Int.floor_le_ceil pos
  have hc1 : ⌈pos⌉ ≤ (s.length : ℤ) - 1 := by
    rw [Int.ceil_le]; push_cast; linarith
  have h0f : (0 : ℤ) ≤ ⌊pos⌋ := by
    rw [Int.le_floor]; exact_mod_cast h0
  have hcn : ⌈pos⌉.toNat < s.length := by omega
  have hv : s.getD ⌊pos⌋.toNat 0 ≤ s.getD ⌈pos⌉.toNat 0 :=
    getD_mono_of_sorted hs (by omega) hcn
  have hfr : (0 : ℚ) ≤ pos - ⌊pos⌋ := by
    have := Int.floor_le pos; linarith
  have hfr1 : pos - ⌊pos⌋ ≤ 1 := by
    have := Int.lt_floor_add_one pos
    push_cast at this
    linarith
  unfold interpAt
  nlinarith [mul_nonneg (by linarith : (0:ℚ) ≤ 1 - (pos - ⌊pos⌋)) (sub_nonneg.mpr hv)]

theorem interpAt_mono {s : List ℚ} (hs : s.Sorted (· ≤ ·)) {pos pos' : ℚ}
    (h0 : 0 ≤ pos) (h01 : pos ≤ pos') (h2 : pos' ≤ (s.length : ℚ) - 1) :
    interpAt s pos ≤ interpAt s pos' := by
  have h0' : 0 ≤ pos' := le_trans h0 h01
  have h1 : pos ≤ (s.length : ℚ) - 1 := le_trans h01 h2
  have h0f : (0 : ℤ) ≤ ⌊pos⌋ := by rw [Int.le_floor]; exact_mod_cast h0
  have h0f' : (0 : ℤ) ≤ ⌊pos'⌋ := by rw [Int.le_floor]; exact_mod_cast h0'
  have hc1' : ⌈pos'⌉ ≤ (s.length : ℤ) - 1 := by
    rw [Int.ceil_le]; push_cast; linarith
  have hff : ⌊pos⌋ ≤ ⌊pos'⌋ := Int.floor_le_floor h01
  by_cases hc : ⌈pos⌉ ≤ ⌊pos'⌋
  · -- the two brackets are separated: go through the order statistics
    have hf1 : ⌊pos'⌋ ≤ ⌈pos'⌉ := Int.floor_le_ceil pos'
    have hfn' : ⌊pos'⌋.toNat < s.length := by omega
    calc interpAt s pos ≤ s.getD ⌈pos⌉.toNat 0 := interpAt_le_hi hs h0 h1
      _ ≤ s.getD ⌊pos'⌋.toNat 0 :=
        getD_mono_of_sorted hs (Int.toNat_le_toNat hc) hfn'
      _ ≤ interpAt s pos' := interpAt_ge_lo hs h0' h2
  · -- both positions share the same floor
    have hcf1 : ⌈pos⌉ ≤ ⌊pos⌋ + 1 := Int.ceil_le_floor_add_one pos
    have hfeq : ⌊pos'⌋ = ⌊pos⌋ := by omega
    by_cases hpi : ⌈pos⌉ ≤ ⌊pos⌋
    · -- pos is an integer: its interpolation is the order statistic itself
      have hpe : pos = (⌊pos⌋ : ℚ) := by
        have hle : (⌊pos⌋ : ℚ) ≤ pos := Int.floor_le pos
        have hge : pos ≤ (⌈pos⌉ : ℚ) := Int.le_ceil pos
        have : (⌈pos⌉ : ℚ) ≤ (⌊pos⌋ : ℚ) := by exact_mod_cast hpi
        linarith
      have hz : interpAt s pos = s.getD ⌊pos⌋.toNat 0 := by
        unfold interpAt
        rw [← hpe, sub_self, zero_mul, add_zero]
      rw [hz, ← hfeq]
      exact interpAt_ge_lo hs h0' h2
    · -- pos is not an integer: the two brackets coincide
      have hce : ⌈pos⌉ = ⌊pos⌋ + 1 := by omega
      have hf1' : ⌊pos'⌋ ≤ ⌈pos'⌉ := Int.floor_le_ceil pos'
      have hcf1' : ⌈pos'⌉ ≤ ⌊pos'⌋ + 1 := Int.ceil_le_floor_add_one pos'
      by_cases hpi' : ⌈pos'⌉ ≤ ⌊pos'⌋
      · -- then pos' is an integer equal to the common floor, forcing pos = pos'
        have hpe' : pos' = (⌊pos'⌋ : ℚ) := by
          have hle : (⌊pos'⌋ : ℚ) ≤ pos' := Int.floor_le pos'
          have hge : pos' ≤ (⌈pos'⌉ : ℚ) := Int.le_ceil pos'
          have : (⌈pos'⌉ : ℚ) ≤ (⌊pos'⌋ : ℚ) := by exact_mod_cast hpi'
          linarith
        have hple : pos ≤ (⌊pos⌋ : ℚ) := by
          rw [← hfeq]; rw [hpe'] at h01; exact h01
        have hpe : pos = (⌊pos⌋ : ℚ) := le_antisymm hple (Int.floor_le pos)
        have : ⌈pos⌉ = ⌊pos⌋ := by
          rw [hpe, Int.ceil_intCast, Int.floor_intCast]
        omega
      · have hce' : ⌈pos'⌉ = ⌊pos'⌋ + 1 := by omega
        have hcn' : ⌈pos'⌉.toNat < s.length := by omega
        have hv : s.getD ⌊pos'⌋.toNat 0 ≤ s.getD ⌈pos'⌉.toNat 0 :=
          getD_mono_of_sorted hs (by omega) hcn'
        rw [hce', hfeq] at hv
        unfold interpAt
        rw [hce, hce', hfeq]
        have hmul := mul_le_mul_of_nonneg_right
          (sub_le_sub_right h01 ((⌊pos⌋ : ℚ))) (sub_nonneg.mpr hv)
        linarith

theorem quantile_le_quantile {xs : List ℚ} (hxs : xs ≠ []) {p q : ℚ}
    (hp : 0 ≤ p) (hpq : p ≤ q) (hq : q ≤ 1) :
    quantile xs p ≤ quantile xs q := by
  have hlen1 : 0 < xs.length := List.length_pos.mpr hxs
  have hn0 : (0 : ℚ) ≤ (xs.length : ℚ) - 1 := by
    have : (1 : ℚ) ≤ (xs.length : ℚ) := by exact_mod_cast hlen1
    linarith
  have hs : (List.insertionSort (· ≤ ·) xs).Sorted (· ≤ ·) :=
    List.sorted_insertionSort _ _
  have hlen : (List.insertionSort (· ≤ ·) xs).length = xs.length :=
    List.length_insertionSort _ _
  unfold quantile
  apply interpAt_mono hs (mul_nonneg hp hn0)
    (mul_le_mul_of_nonneg_right hpq hn0)
  rw [hlen]
  exact mul_le_of_le_one_left hn0 hq

theorem quantile_eq_specPercentile (xs : List ℚ) (p : ℚ) :
    quantile xs p = specPercentile xs p := by
  unfold quantile interpAt specPercentile
  ring

/-! ### Helper lemmas: substrings -/

theorem prefChars_append_self (n suf : List Char) :
    prefChars n (n ++ suf) = true := by
  induction n with
  | nil => rfl
  | cons c cs ih => simp [prefChars, ih]

theorem infChars_of_pref {n hay : List Char} (h : prefChars n hay = true) :
    infChars n hay = true := by
  cases hay with
  | nil => simpa [infChars] using h
  | cons b hs => simp [infChars, h]

theorem infChars_append_left (pre : List Char) {n rest : List Char}
    (h : infChars n rest = true) : infChars n (pre ++ rest) = true := by
  induction pre with
  | nil => simpa
  | cons c cs ih => simp [infChars, ih]

theorem strContains_of_split (pre needle suf : String) :
    strContains (pre ++ (needle ++ suf)) needle = true := by
  unfold strContains
  rw [String.data_append, String.data_append]
  exact infChars_append_left _ (infChars_of_pref (prefChars_append_self _ _))

/-! ### The claims -/

/-- C2: stage 1 retains a raw row exactly when lower-casing its `out/in`
field yields the string `in`; rows with `IN`, `in`, `In` are retained and
rows with `Out`, `OUT` are dropped. -/
theorem out_in_filter_case_insensitive :
    (∀ (df : List RawRow) (r : RawRow),
        r ∈ df.filter keepRow ↔ r ∈ df ∧ lowerStr r.out_in = "in") ∧
    (∀ r : RawRow, r.out_in = "IN" ∨ r.out_in = "in" ∨ r.out_in = "In" →
        keepRow r = true) ∧
    (∀ r : RawRow, r.out_in = "Out" ∨ r.out_in = "OUT" → keepRow r = false) := by
  refine ⟨fun df r => ?_, fun r h => ?_, fun r h => ?_⟩
  · rw [List.mem_filter]
    constructor
    · rintro ⟨h1, h2⟩
      exact ⟨h1, by simpa [keepRow] using h2⟩
    · rintro ⟨h1, h2⟩
      exact ⟨h1, by simp [keepRow, h2]⟩
  · rcases h with h | h | h <;> simp only [keepRow, h] <;> rfl
  · rcases h with h | h <;> simp only [keepRow, h] <;> rfl

/-- C2 witness: a concrete upper-case `IN` row passes the filter. -/
theorem out_in_filter_case_insensitive_witness :
    keepRow ⟨"Room Admin", "08-12-2018 09:30", 29, "IN"⟩ = true :=
  out_in_filter_case_insensitive.2.1 _ (Or.inl rfl)

/-- C5: stage 1 fails exactly when the out/in filter keeps no row (the test
precedes date parsing), and the error is `NoMatchingRecords` carrying the
distinct values observed in the `out/in` column (which are pairwise
distinct and exactly the values occurring in the column). -/
theorem no_matching_records_iff_empty_filter (df : List RawRow) (e : PipelineError) :
    (load_and_filter_data df = .error e ↔
      (df.filter keepRow = [] ∧
        e = .NoMatchingRecords (uniqueFirst (df.map (·.out_in))))) ∧
    (uniqueFirst (df.map (·.out_in))).Nodup ∧
    (∀ v, v ∈ uniqueFirst (df.map (·.out_in)) ↔ v ∈ df.map (·.out_in)) := by
  refine ⟨?_, nodup_uniqueFirst _, fun v => mem_uniqueFirst _ v⟩
  unfold load_and_filter_data
  by_cases h : (df.filter keepRow).length = 0
  · rw [if_pos h]
    constructor
    · intro he
      refine ⟨List.length_eq_zero.mp h, ?_⟩
      injection he with he'
      exact he'.symm
    · rintro ⟨-, rfl⟩
      rfl
  · rw [if_neg h]
    constructor
    · intro he
      exact absurd he (by simp)
    · rintro ⟨hnil, -⟩
      exact absurd (by rw [hnil]; rfl : (df.filter keepRow).length = 0) h

/-- C3: when the out/in filter keeps at least one row, stage 1 succeeds
(date-parse failures raise no error), the dates are parsed on the filtered
subset only, unparsable rows are dropped, and the forwarded `filtered_rows`
is the row count after the date-drop. -/
theorem filter_then_parse_counts (df : List RawRow)
    (h : df.filter keepRow ≠ []) :
    ∃ res, load_and_filter_data df = .ok res ∧
      res.filtered = (df.filter keepRow).filterMap addDate ∧
      res.total_rows = df.length ∧
      res.filtered_rows =
        ((df.filter keepRow).filter
          (fun r => (parseNotedDate r.noted_date).isSome)).length := by
  have hmain : load_and_filter_data df =
      .ok ⟨(df.filter keepRow).filterMap addDate, df.length,
        ((df.filter keepRow).filterMap addDate).length⟩ := by
    unfold load_and_filter_data
    rw [if_neg (fun h0 => h (List.length_eq_zero.mp h0))]
  exact ⟨_, hmain, rfl, rfl, length_filterMap_addDate _⟩

/-- C3 witness: a run over three rows, one of which is indoor with an
invalid date (February 31st) and is silently dropped from the count. -/
theorem filter_then_parse_counts_witness :
    ∃ res, load_and_filter_data
        [RawRow.mk "r1" "01-01-2026 10:00" 30 "In",
         RawRow.mk "r2" "31-02-2026 10:00" 31 "in",
         RawRow.mk "r3" "01-01-2026 12:00" 99 "Out"] = .ok res ∧
      res.filtered = ([RawRow.mk "r1" "01-01-2026 10:00" 30 "In",
         RawRow.mk "r2" "31-02-2026 10:00" 31 "in",
         RawRow.mk "r3" "01-01-2026 12:00" 99 "Out"].filter keepRow).filterMap addDate ∧
      res.total_rows = [RawRow.mk "r1" "01-01-2026 10:00" 30 "In",
         RawRow.mk "r2" "31-02-2026 10:00" 31 "in",
         RawRow.mk "r3" "01-01-2026 12:00" 99 "Out"].length ∧
      res.filtered_rows =
        (([RawRow.mk "r1" "01-01-2026 10:00" 30 "In",
         RawRow.mk "r2" "31-02-2026 10:00" 31 "in",
         RawRow.mk "r3" "01-01-2026 12:00" 99 "Out"].filter keepRow).filter
          (fun r => (parseNotedDate r.noted_date).isSome)).length :=
  filter_then_parse_counts _ (by with_unfolding_all decide)

/-- C7: whenever stage 2 succeeds, the two pushed percentiles satisfy
`p5 ≤ p95`. -/
theorem p5_le_p95 (df : List FilteredRow) (st : StageTwoResult)
    (h : clean_temperature df = .ok st) : st.p5 ≤ st.p95 := by
  unfold clean_temperature at h
  split at h
  · exact absurd h (by simp)
  · rename_i hne
    simp only [Except.ok.injEq] at h
    subst h
    have hdf : df ≠ [] := fun h0 => hne (by rw [h0]; rfl)
    have hmap : df.map (·.temp) ≠ [] := by
      simpa [List.map_eq_nil_iff] using hdf
    exact quantile_le_quantile hmap (by norm_num) (by norm_num) (by norm_num)

/-- C7 witness: a concrete two-row stage-2 run. -/
theorem p5_le_p95_witness :
    (⟨[], 2, 5, 95, 0⟩ : StageTwoResult).p5 ≤
      (⟨[], 2, 5, 95, 0⟩ : StageTwoResult).p95 :=
  p5_le_p95 [⟨"r1", "08-12-2018 09:30", 0, "In", ⟨2018, 12, 8⟩⟩,
    ⟨"r2", "08-12-2018 09:45", 100, "In", ⟨2018, 12, 8⟩⟩] _
    (by with_unfolding_all rfl)

/-- C6: whenever stages 1 and 2 both succeed, the forwarded counts satisfy
`cleaned_rows ≤ filtered_rows ≤ total_rows`. -/
theorem row_counts_monotone (df : List RawRow) (r1 : StageOneResult)
    (r2 : StageTwoResult) (h1 : load_and_filter_data df = .ok r1)
    (h2 : clean_temperature r1.filtered = .ok r2) :
    r2.cleaned_rows ≤ r1.filtered_rows ∧ r1.filtered_rows ≤ r1.total_rows := by
  unfold load_and_filter_data at h1
  split at h1
  · exact absurd h1 (by simp)
  · simp only [Except.ok.injEq] at h1
    subst h1
    unfold clean_temperature at h2
    split at h2
    · exact absurd h2 (by simp)
    · simp only [Except.ok.injEq] at h2
      subst h2
      constructor
      · exact List.length_filter_le _ _
      · exact le_trans (List.length_filterMap_le _ _) (List.length_filter_le _ _)

/-- C1: for a non-empty filtered set, stage 2 succeeds, its `p5` and `p95`
are the 5th and 95th linear-interpolation percentiles of the full filtered
`temp` sample in the sense of the specification formula, the cleaned set is
exactly the filtered rows whose `temp` lies in `[p5, p95]` inclusive, and
`outliers_removed` is the filtered count minus the cleaned count. -/
theorem clean_temperature_percentile_band (df : List FilteredRow) (h : df ≠ []) :
    ∃ st, clean_temperature df = .ok st ∧
      st.p5 = specPercentile (df.map (·.temp)) (5 / 100) ∧
      st.p95 = specPercentile (df.map (·.temp)) (95 / 100) ∧
      st.cleaned = df.filter (inBand st.p5 st.p95) ∧
      (∀ r ∈ st.cleaned, st.p5 ≤ r.temp ∧ r.temp ≤ st.p95) ∧
      st.outliers_removed = df.length - st.cleaned.length ∧
      st.cleaned_rows = st.cleaned.length := by
  have hlen : ¬ df.length = 0 := fun h0 => h (List.length_eq_zero.mp h0)
  have hmain : clean_temperature df = .ok
      ⟨df.filter (inBand (quantile (df.map (·.temp)) (5 / 100))
          (quantile (df.map (·.temp)) (95 / 100))),
        df.length - (df.filter (inBand (quantile (df.map (·.temp)) (5 / 100))
          (quantile (df.map (·.temp)) (95 / 100)))).length,
        quantile (df.map (·.temp)) (5 / 100),
        quantile (df.map (·.temp)) (95 / 100),
        (df.filter (inBand (quantile (df.map (·.temp)) (5 / 100))
          (quantile (df.map (·.temp)) (95 / 100)))).length⟩ := by
    unfold clean_temperature
    rw [if_neg hlen]
  refine ⟨_, hmain, quantile_eq_specPercentile _ _, quantile_eq_specPercentile _ _,
    rfl, ?_, rfl, rfl⟩
  intro r hr
  have h2 := (List.mem_filter.mp hr).2
  unfold inBand at h2
  simp only [Bool.and_eq_true, decide_eq_true_eq] at h2
  exact h2

/-- C1 witness: a concrete one-row filtered set. -/
theorem clean_temperature_percentile_band_witness :
    ∃ st, clean_temperature [FilteredRow.mk "r1" "08-12-2018 09:30" 29 "In" ⟨2018, 12, 8⟩] = .ok st ∧
      st.p5 = specPercentile ([FilteredRow.mk "r1" "08-12-2018 09:30" 29 "In" ⟨2018, 12, 8⟩].map (·.temp)) (5 / 100) ∧
      st.p95 = specPercentile ([FilteredRow.mk "r1" "08-12-2018 09:30" 29 "In" ⟨2018, 12, 8⟩].map (·.temp)) (95 / 100) ∧
      st.cleaned = [FilteredRow.mk "r1" "08-12-2018 09:30" 29 "In" ⟨2018, 12, 8⟩].filter (inBand st.p5 st.p95) ∧
      (∀ r ∈ st.cleaned, st.p5 ≤ r.temp ∧ r.temp ≤ st.p95) ∧
      st.outliers_removed = [FilteredRow.mk "r1" "08-12-2018 09:30" 29 "In" ⟨2018, 12, 8⟩].length - st.cleaned.length ∧
      st.cleaned_rows = st.cleaned.length :=
  clean_temperature_percentile_band _ (by simp)

/-- C6 witness: the three-row scenario of the specification. -/
theorem row_counts_monotone_witness :
    (⟨[], 2, 301/10, 319/10, 0⟩ : StageTwoResult).cleaned_rows ≤
      (⟨[⟨"r1", "01-01-2026 10:00", 30, "In", ⟨2026, 1, 1⟩⟩,
         ⟨"r2", "01-01-2026 11:00", 32, "in", ⟨2026, 1, 1⟩⟩], 3, 2⟩ :
        StageOneResult).filtered_rows ∧
    (⟨[⟨"r1", "01-01-2026 10:00", 30, "In", ⟨2026, 1, 1⟩⟩,
       ⟨"r2", "01-01-2026 11:00", 32, "in", ⟨2026, 1, 1⟩⟩], 3, 2⟩ :
        StageOneResult).filtered_rows ≤
      (⟨[⟨"r1", "01-01-2026 10:00", 30, "In", ⟨2026, 1, 1⟩⟩,
         ⟨"r2", "01-01-2026 11:00", 32, "in", ⟨2026, 1, 1⟩⟩], 3, 2⟩ :
        StageOneResult).total_rows :=
  row_counts_monotone
    [⟨"r1", "01-01-2026 10:00", 30, "In"⟩,
     ⟨"r2", "01-01-2026 11:00", 32, "in"⟩,
     ⟨"r3", "01-01-2026 12:00", 99, "Out"⟩] _ _
    (by with_unfolding_all rfl) (by with_unfolding_all rfl)

instance : IsTotal DailyAvg (fun a b => b.avg_temp ≤ a.avg_temp) :=
  ⟨fun a b => le_total b.avg_temp a.avg_temp⟩

instance : IsTrans DailyAvg (fun a b => b.avg_temp ≤ a.avg_temp) :=
  ⟨fun _ _ _ h1 h2 => le_trans h2 h1⟩

instance : IsTotal DailyAvg (fun a b => a.avg_temp ≤ b.avg_temp) :=
  ⟨fun a b => le_total a.avg_temp b.avg_temp⟩

instance : IsTrans DailyAvg (fun a b => a.avg_temp ≤ b.avg_temp) :=
  ⟨fun _ _ _ => le_trans⟩

/-- C4: for a non-empty cleaned set, stage 3 succeeds with no padding; the
hottest list is sorted by average temperature descending and the coldest
ascending; both have length `min 5 (number of distinct dates)`; and every
listed day carries the arithmetic mean of `temp` over its date group. -/
theorem extreme_days_sorted_min_five (df : List FilteredRow) (h : df ≠ []) :
    ∃ res, calculate_extreme_days df = .ok res ∧
      List.Sorted (fun a b : DailyAvg => b.avg_temp ≤ a.avg_temp) res.hottest ∧
      List.Sorted (fun a b : DailyAvg => a.avg_temp ≤ b.avg_temp) res.coldest ∧
      res.hottest.length = min 5 (distinctDates df).length ∧
      res.coldest.length = min 5 (distinctDates df).length ∧
      (distinctDates df).Nodup ∧
      (∀ d, d ∈ distinctDates df ↔ d ∈ df.map (·.date)) ∧
      (∀ da, da ∈ res.hottest → da.avg_temp = dateMean df da.date) ∧
      (∀ da, da ∈ res.coldest → da.avg_temp = dateMean df da.date) := by
  have hlen : ¬ df.length = 0 := fun h0 => h (List.length_eq_zero.mp h0)
  have hmain : calculate_extreme_days df =
      .ok ⟨nlargest 5 (groupbyDateMean df), nsmallest 5 (groupbyDateMean df)⟩ := by
    unfold calculate_extreme_days
    rw [if_neg hlen]
  have hglen : (groupbyDateMean df).length = (distinctDates df).length := by
    unfold groupbyDateMean
    rw [List.length_map, List.length_insertionSort]
  have hmem : ∀ da, da ∈ groupbyDateMean df → da.avg_temp = dateMean df da.date := by
    intro da hda
    unfold groupbyDateMean at hda
    rcases List.mem_map.mp hda with ⟨d, -, rfl⟩
    rfl
  refine ⟨_, hmain, ?_, ?_, ?_, ?_, nodup_uniqueFirst _,
    fun d => mem_uniqueFirst _ d, ?_, ?_⟩
  · exact List.Pairwise.sublist (List.take_sublist _ _)
      (List.sorted_insertionSort _ _)
  · exact List.Pairwise.sublist (List.take_sublist _ _)
      (List.sorted_insertionSort _ _)
  · show (nlargest 5 (groupbyDateMean df)).length = _
    unfold nlargest
    rw [List.length_take, List.length_insertionSort, hglen]
  · show (nsmallest 5 (groupbyDateMean df)).length = _
    unfold nsmallest
    rw [List.length_take, List.length_insertionSort, hglen]
  · intro da hda
    refine hmem da ?_
    exact (List.perm_insertionSort _ _).mem_iff.mp
      ((List.take_sublist _ _).subset hda)
  · intro da hda
    refine hmem da ?_
    exact (List.perm_insertionSort _ _).mem_iff.mp
      ((List.take_sublist _ _).subset hda)

/-- C4 witness: a cleaned set spanning three distinct dates. -/
theorem extreme_days_sorted_min_five_witness :
    ∃ res, calculate_extreme_days
        [FilteredRow.mk "r1" "01-01-2026 10:00" 30 "In" ⟨2026, 1, 1⟩,
         FilteredRow.mk "r2" "02-01-2026 10:00" 20 "In" ⟨2026, 1, 2⟩,
         FilteredRow.mk "r3" "03-01-2026 10:00" 25 "In" ⟨2026, 1, 3⟩] = .ok res ∧
      List.Sorted (fun a b : DailyAvg => b.avg_temp ≤ a.avg_temp) res.hottest ∧
      List.Sorted (fun a b : DailyAvg => a.avg_temp ≤ b.avg_temp) res.coldest ∧
      res.hottest.length = min 5 (distinctDates
        [FilteredRow.mk "r1" "01-01-2026 10:00" 30 "In" ⟨2026, 1, 1⟩,
         FilteredRow.mk "r2" "02-01-2026 10:00" 20 "In" ⟨2026, 1, 2⟩,
         FilteredRow.mk "r3" "03-01-2026 10:00" 25 "In" ⟨2026, 1, 3⟩]).length ∧
      res.coldest.length = min 5 (distinctDates
        [FilteredRow.mk "r1" "01-01-2026 10:00" 30 "In" ⟨2026, 1, 1⟩,
         FilteredRow.mk "r2" "02-01-2026 10:00" 20 "In" ⟨2026, 1, 2⟩,
         FilteredRow.mk "r3" "03-01-2026 10:00" 25 "In" ⟨2026, 1, 3⟩]).length ∧
      (distinctDates
        [FilteredRow.mk "r1" "01-01-2026 10:00" 30 "In" ⟨2026, 1, 1⟩,
         FilteredRow.mk "r2" "02-01-2026 10:00" 20 "In" ⟨2026, 1, 2⟩,
         FilteredRow.mk "r3" "03-01-2026 10:00" 25 "In" ⟨2026, 1, 3⟩]).Nodup ∧
      (∀ d, d ∈ distinctDates
        [FilteredRow.mk "r1" "01-01-2026 10:00" 30 "In" ⟨2026, 1, 1⟩,
         FilteredRow.mk "r2" "02-01-2026 10:00" 20 "In" ⟨2026, 1, 2⟩,
         FilteredRow.mk "r3" "03-01-2026 10:00" 25 "In" ⟨2026, 1, 3⟩] ↔
        d ∈ [FilteredRow.mk "r1" "01-01-2026 10:00" 30 "In" ⟨2026, 1, 1⟩,
         FilteredRow.mk "r2" "02-01-2026 10:00" 20 "In" ⟨2026, 1, 2⟩,
         FilteredRow.mk "r3" "03-01-2026 10:00" 25 "In" ⟨2026, 1, 3⟩].map (·.date)) ∧
      (∀ da, da ∈ res.hottest → da.avg_temp = dateMean
        [FilteredRow.mk "r1" "01-01-2026 10:00" 30 "In" ⟨2026, 1, 1⟩,
         FilteredRow.mk "r2" "02-01-2026 10:00" 20 "In" ⟨2026, 1, 2⟩,
         FilteredRow.mk "r3" "03-01-2026 10:00" 25 "In" ⟨2026, 1, 3⟩] da.date) ∧
      (∀ da, da ∈ res.coldest → da.avg_temp = dateMean
        [FilteredRow.mk "r1" "01-01-2026 10:00" 30 "In" ⟨2026, 1, 1⟩,
         FilteredRow.mk "r2" "02-01-2026 10:00" 20 "In" ⟨2026, 1, 2⟩,
         FilteredRow.mk "r3" "03-01-2026 10:00" 25 "In" ⟨2026, 1, 3⟩] da.date) :=
  extreme_days_sorted_min_five _ (by simp)

/-- C10: a concrete two-row filtered set (temperatures 0 and 100) on which
stage 2 succeeds but the interpolated band `[5, 95]` excludes both rows, so
the persisted cleaned set is empty with `cleaned_rows = 0`, and stage 3
then fails with its `EmptyInput` error. -/
theorem nonempty_filtered_can_clean_to_empty :
    [FilteredRow.mk "r1" "08-12-2018 09:30" 0 "In" ⟨2018, 12, 8⟩,
     FilteredRow.mk "r2" "08-12-2018 09:45" 100 "In" ⟨2018, 12, 8⟩] ≠ [] ∧
    ∃ st, clean_temperature
        [FilteredRow.mk "r1" "08-12-2018 09:30" 0 "In" ⟨2018, 12, 8⟩,
         FilteredRow.mk "r2" "08-12-2018 09:45" 100 "In" ⟨2018, 12, 8⟩] = .ok st ∧
      st.cleaned = [] ∧ st.cleaned_rows = 0 ∧
      calculate_extreme_days st.cleaned = .error .EmptyInput := by
  refine ⟨by simp, ⟨[], 2, 5, 95, 0⟩, by with_unfolding_all rfl, rfl, rfl, rfl⟩

set_option maxRecDepth 20000 in
/-- C8 counterexample: a registry missing the required `outliers_removed`
fact on which stage 4 nevertheless succeeds, rendering the literal text
`None` in the outlier slot of the report. -/
theorem generate_report_missing_fact_no_failure :
    (generate_report "2026-01-01 00:00:00"
        ⟨some 200, some 100, none, some 1, some 2, some 90,
          some [DailyAvg.mk ⟨2026, 1, 1⟩ 25], some [DailyAvg.mk ⟨2026, 1, 1⟩ 25]⟩).map
      (fun s => strContains s "Удалено выбросов: None") = .ok true := by
  with_unfolding_all rfl

/-- C8 amended: stage 4 fails whenever `total_rows`, `filtered_rows`, `p5`,
`p95`, `hottest_days` or `coldest_days` is absent (these feed a division, a
two-decimal format or an enumerate, all of which raise on a missing value),
but an absent `outliers_removed` or `cleaned_rows` does not make it fail:
those are plain interpolations and render as the text `None`. -/
theorem generate_report_failure_conditions :
    (∀ (now : String) (reg : XComRegistry),
        reg.total_rows = none ∨ reg.filtered_rows = none ∨ reg.p5 = none ∨
          reg.p95 = none ∨ reg.hottest_days = none ∨ reg.coldest_days = none →
        ∃ e, generate_report now reg = .error e) ∧
    (∀ (now : String) (tr fr : Nat) (o cr : Option Nat) (p5v p95v : ℚ)
        (hot cold : List DailyAvg), tr ≠ 0 →
        ∃ s, generate_report now ⟨some tr, some fr, o, some p5v, some p95v,
          cr, some hot, some cold⟩ = .ok s) := by
  constructor
  · intro now reg hmiss
    rcases reg with ⟨t, f, o, p5r, p95r, c, hotr, coldr⟩
    rcases f with _ | fr
    · exact ⟨.typeError, rfl⟩
    rcases t with _ | tr
    · exact ⟨.typeError, rfl⟩
    by_cases htr : tr = 0
    · subst htr
      exact ⟨.zeroDivision, by simp [generate_report]⟩
    rcases p5r with _ | p5v
    · exact ⟨.typeError, by simp [generate_report, htr]⟩
    rcases p95r with _ | p95v
    · exact ⟨.typeError, by simp [generate_report, htr]⟩
    rcases hotr with _ | hot
    · exact ⟨.typeError, by simp [generate_report, htr]⟩
    rcases coldr with _ | cold
    · exact ⟨.typeError, by simp [generate_report, htr]⟩
    simp at hmiss
  · intro now tr fr o cr p5v p95v hot cold htr
    refine ⟨renderReport now (toString tr) (toString fr)
      (fmt2 ((fr : ℚ) / (tr : ℚ) * 100)) (fmt2 p5v) (fmt2 p95v)
      (optNatStr o) (optNatStr cr) (enumLines hot) (enumLines cold), ?_⟩
    simp [generate_report, optNatStr, htr]

/-- C8 witness: a registry with `p5` absent makes stage 4 fail. -/
theorem generate_report_failure_conditions_witness :
    ∃ e, generate_report "2026-01-01 00:00:00"
      ⟨some 100, some 50, some 5, none, some 2, some 45, some [], some []⟩ =
        .error e :=
  generate_report_failure_conditions.1 _ _ (Or.inr (Or.inr (Or.inl rfl)))

set_option maxRecDepth 20000 in
/-- C9 counterexample: at a concrete complete registry (200 total rows, 100
filtered, 10 outliers removed) the outlier percentage the claim describes,
`outliers_removed / filtered_rows * 100 = 10.00` percent, appears nowhere in
the rendered report, although the filter percentage `50.00%` and the plain
outlier count both do, in that very two-decimal format. -/
theorem report_lacks_outlier_percentage :
    fmt2 ((10 : ℚ) / (100 : ℚ) * 100) ++ "%" = "10.00%" ∧
    (generate_report "2026-01-01 00:00:00"
        ⟨some 200, some 100, some 10, some 1, some 2, some 90,
          some [DailyAvg.mk ⟨2026, 1, 1⟩ 25],
          some [DailyAvg.mk ⟨2026, 1, 1⟩ 25]⟩).map
      (fun s => (strContains s "10.00%", strContains s "50.00%",
        strContains s "Удалено выбросов: 10")) = .ok (false, true, true) := by
  constructor
  · with_unfolding_all rfl
  · with_unfolding_all rfl

/-- C9 amended: for every complete registry (non-zero total), stage 4
renders the report, which contains the plain outlier count, the filter
percentage `filtered_rows / total_rows * 100` to two decimals, and the two
percentiles formatted to two decimals; no outlier percentage is rendered
(see the counterexample), the filter percentage being the only derived one. -/
theorem report_contains_counts_and_filter_percentage (now : String)
    (tr fr o cr : Nat) (p5v p95v : ℚ) (hot cold : List DailyAvg)
    (htr : tr ≠ 0) :
    ∃ s, generate_report now ⟨some tr, some fr, some o, some p5v, some p95v,
        some cr, some hot, some cold⟩ = .ok s ∧
      strContains s ("Удалено выбросов: " ++ toString o) = true ∧
      strContains s ("Процент отфильтрованных: " ++
        fmt2 ((fr : ℚ) / (tr : ℚ) * 100) ++ "%") = true ∧
      strContains s ("5-й перцентиль: " ++ fmt2 p5v ++ "°C") = true ∧
      strContains s ("95-й перцентиль: " ++ fmt2 p95v ++ "°C") = true := by
  have hmain : generate_report now ⟨some tr, some fr, some o, some p5v,
      some p95v, some cr, some hot, some cold⟩ =
      .ok (renderReport now (toString tr) (toString fr)
        (fmt2 ((fr : ℚ) / (tr : ℚ) * 100)) (fmt2 p5v) (fmt2 p95v)
        (toString o) (toString cr) (enumLines hot) (enumLines cold)) := by
    simp [generate_report, optNatStr, htr]
  refine ⟨_, hmain, ?_, ?_, ?_, ?_⟩
  · have e1 : renderReport now (toString tr) (toString fr)
        (fmt2 ((fr : ℚ) / (tr : ℚ) * 100)) (fmt2 p5v) (fmt2 p95v)
        (toString o) (toString cr) (enumLines hot) (enumLines cold) =
      ("\n==========================================\nОТЧЁТ ПО ОБРАБОТКЕ ДАННЫХ IOT-ТЕМПЕРАТУРЫ\n==========================================\nДата обработки: " ++
        now ++ "\n\nИсходные данные:\n  - Всего записей: " ++ toString tr ++
        "\n  - Записей после фильтрации (out/in = \x27In\x27): " ++ toString fr ++
        "\n  - Процент отфильтрованных: " ++ fmt2 ((fr : ℚ) / (tr : ℚ) * 100) ++
        "%\n\nОчистка температуры:\n  - 5-й перцентиль: " ++ fmt2 p5v ++
        "°C\n  - 95-й перцентиль: " ++ fmt2 p95v ++ "°C\n  - ") ++
      (("Удалено выбросов: " ++ toString o) ++
        ("\n  - Осталось записей после очистки: " ++ toString cr ++
         "\n\nЭкстремальные дни:\n  Самые жаркие:\n" ++ enumLines hot ++
         "\n\n  Самые холодные:\n" ++ enumLines cold ++
         "\n\nРезультаты сохранены в:\n  - /opt/airflow/processed/hottest_days.csv\n  - /opt/airflow/processed/coldest_days.csv\n==========================================\n")) := by
      unfold renderReport
      rw [show ("°C\n  - Удалено выбросов: " : String) =
        "°C\n  - " ++ "Удалено выбросов: " from rfl]
      simp only [String.append_assoc]
    rw [e1]
    exact strContains_of_split _ _ _
  · have e2 : renderReport now (toString tr) (toString fr)
        (fmt2 ((fr : ℚ) / (tr : ℚ) * 100)) (fmt2 p5v) (fmt2 p95v)
        (toString o) (toString cr) (enumLines hot) (enumLines cold) =
      ("\n==========================================\nОТЧЁТ ПО ОБРАБОТКЕ ДАННЫХ IOT-ТЕМПЕРАТУРЫ\n==========================================\nДата обработки: " ++
        now ++ "\n\nИсходные данные:\n  - Всего записей: " ++ toString tr ++
        "\n  - Записей после фильтрации (out/in = \x27In\x27): " ++ toString fr ++
        "\n  - ") ++
      (("Процент отфильтрованных: " ++ fmt2 ((fr : ℚ) / (tr : ℚ) * 100) ++ "%") ++
        ("\n\nОчистка температуры:\n  - 5-й перцентиль: " ++ fmt2 p5v ++
         "°C\n  - 95-й перцентиль: " ++ fmt2 p95v ++
         "°C\n  - Удалено выбросов: " ++ toString o ++
         "\n  - Осталось записей после очистки: " ++ toString cr ++
         "\n\nЭкстремальные дни:\n  Самые жаркие:\n" ++ enumLines hot ++
         "\n\n  Самые холодные:\n" ++ enumLines cold ++
         "\n\nРезультаты сохранены в:\n  - /opt/airflow/processed/hottest_days.csv\n  - /opt/airflow/processed/coldest_days.csv\n==========================================\n")) := by
      unfold renderReport
      rw [show ("\n  - Процент отфильтрованных: " : String) =
        "\n  - " ++ "Процент отфильтрованных: " from rfl]
      rw [show ("%\n\nОчистка температуры:\n  - 5-й перцентиль: " : String) =
        "%" ++ "\n\nОчистка температуры:\n  - 5-й перцентиль: " from rfl]
      simp only [String.append_assoc]
    rw [e2]
    exact strContains_of_split _ _ _
  · have e3 : renderReport now (toString tr) (toString fr)
        (fmt2 ((fr : ℚ) / (tr : ℚ) * 100)) (fmt2 p5v) (fmt2 p95v)
        (toString o) (toString cr) (enumLines hot) (enumLines cold) =
      ("\n==========================================\nОТЧЁТ ПО ОБРАБОТКЕ ДАННЫХ IOT-ТЕМПЕРАТУРЫ\n==========================================\nДата обработки: " ++
        now ++ "\n\nИсходные данные:\n  - Всего записей: " ++ toString tr ++
        "\n  - Записей после фильтрации (out/in = \x27In\x27): " ++ toString fr ++
        "\n  - Процент отфильтрованных: " ++ fmt2 ((fr : ℚ) / (tr : ℚ) * 100) ++
        "%\n\nОчистка температуры:\n  - ") ++
      (("5-й перцентиль: " ++ fmt2 p5v ++ "°C") ++
        ("\n  - 95-й перцентиль: " ++ fmt2 p95v ++
         "°C\n  - Удалено выбросов: " ++ toString o ++
         "\n  - Осталось записей после очистки: " ++ toString cr ++
         "\n\nЭкстремальные дни:\n  Самые жаркие:\n" ++ enumLines hot ++
         "\n\n  Самые холодные:\n" ++ enumLines cold ++
         "\n\nРезультаты сохранены в:\n  - /opt/airflow/processed/hottest_days.csv\n  - /opt/airflow/processed/coldest_days.csv\n==========================================\n")) := by
      unfold renderReport
      rw [show ("%\n\nОчистка температуры:\n  - 5-й перцентиль: " : String) =
        "%\n\nОчистка температуры:\n  - " ++ "5-й перцентиль: " from rfl]
      rw [show ("°C\n  - 95-й перцентиль: " : String) =
        "°C" ++ "\n  - 95-й перцентиль: " from rfl]
      simp only [String.append_assoc]
    rw [e3]
    exact strContains_of_split _ _ _
  · have e4 : renderReport now (toString tr) (toString fr)
        (fmt2 ((fr : ℚ) / (tr : ℚ) * 100)) (fmt2 p5v) (fmt2 p95v)
        (toString o) (toString cr) (enumLines hot) (enumLines cold) =
      ("\n==========================================\nОТЧЁТ ПО ОБРАБОТКЕ ДАННЫХ IOT-ТЕМПЕРАТУРЫ\n==========================================\nДата обработки: " ++
        now ++ "\n\nИсходные данные:\n  - Всего записей: " ++ toString tr ++
        "\n  - Записей после фильтрации (out/in = \x27In\x27): " ++ toString fr ++
        "\n  - Процент отфильтрованных: " ++ fmt2 ((fr : ℚ) / (tr : ℚ) * 100) ++
        "%\n\nОчистка температуры:\n  - 5-й перцентиль: " ++ fmt2 p5v ++
        "°C\n  - ") ++
      (("95-й перцентиль: " ++ fmt2 p95v ++ "°C") ++
        ("\n  - Удалено выбросов: " ++ toString o ++
         "\n  - Осталось записей после очистки: " ++ toString cr ++
         "\n\nЭкстремальные дни:\n  Самые жаркие:\n" ++ enumLines hot ++
         "\n\n  Самые холодные:\n" ++ enumLines cold ++
         "\n\nРезультаты сохранены в:\n  - /opt/airflow/processed/hottest_days.csv\n  - /opt/airflow/processed/coldest_days.csv\n==========================================\n")) := by
      unfold renderReport
      rw [show ("°C\n  - 95-й перцентиль: " : String) =
        "°C\n  - " ++ "95-й перцентиль: " from rfl]
      rw [show ("°C\n  - Удалено выбросов: " : String) =
        "°C" ++ "\n  - Удалено выбросов: " from rfl]
      simp only [String.append_assoc]
    rw [e4]
    exact strContains_of_split _ _ _

/-- C9 witness: the amended content statement at a concrete registry. -/
theorem report_contains_counts_and_filter_percentage_witness :
    ∃ s, generate_report "2026-01-01 00:00:00"
        ⟨some 200, some 100, some 10, some 1, some 2, some 90,
          some [], some []⟩ = .ok s ∧
      strContains s ("Удалено выбросов: " ++ toString 10) = true ∧
      strContains s ("Процент отфильтрованных: " ++
        fmt2 ((100 : ℚ) / ((200 : Nat) : ℚ) * 100) ++ "%") = true ∧
      strContains s ("5-й перцентиль: " ++ fmt2 1 ++ "°C") = true ∧
      strContains s ("95-й перцентиль: " ++ fmt2 2 ++ "°C") = true :=
  report_contains_counts_and_filter_percentage "2026-01-01 00:00:00"
    200 100 10 90 1 2 [] [] (by decide)

end IotPipeline
